import Mathlib

/-!
Verification of the Axion calculator's core pipeline — tokenizer, parser and
evaluator — against its natural-language specification.

Modelling conventions.

Go `float64` values are modelled as rationals (`ℚ`).  Every numeric
computation appearing in a claim below (small-integer arithmetic, division,
integer powers, the factorial guards) is exact in IEEE-754 double precision,
so the rational model is faithful on the claim-relevant inputs.
Transcendental library functions (`math.Sin`, `math.Exp`, …) are kept
abstract as fields of a `RealFns` record that the evaluators thread through;
no claim depends on their values.

Arithmetic on the model values is written with the explicit `mkRat`-based
functions `qadd`, `qsub`, `qmul`, `qdiv`, `qneg` below so that concrete runs
reduce inside the kernel; the lemmas `qadd_eq`, …, `qdiv_eq` prove that each
one agrees with the corresponding standard operation on `ℚ`.

Go strings are Lean `String`s; the scanner works on `String.data`
(`List Char`).  All claim inputs are ASCII, where Go's `unicode.IsDigit`,
`unicode.IsLetter` and `unicode.IsSpace` agree with `Char.isDigit`,
`Char.isAlpha` and `Char.isWhitespace`.

Recursive functions take an explicit fuel argument and recurse structurally
on it; every terminating Go execution corresponds to every sufficiently
large fuel, and the fuel bounds chosen for the packaged entry points exceed
the recursion depth of the corresponding Go code on the given input.
-/

/-- Addition on the rational model of `float64` (normalised by `mkRat`). -/
def qadd (a b : ℚ) : ℚ := mkRat (a.num * b.den + b.num * a.den) (a.den * b.den)

/-- Subtraction on the rational model of `float64`. -/
def qsub (a b : ℚ) : ℚ := mkRat (a.num * b.den - b.num * a.den) (a.den * b.den)

/-- Multiplication on the rational model of `float64`. -/
def qmul (a b : ℚ) : ℚ := mkRat (a.num * b.num) (a.den * b.den)

/-- Negation on the rational model of `float64`. -/
def qneg (a : ℚ) : ℚ := mkRat (-a.num) a.den

/-- Reciprocal on the rational model of `float64` (`qinv 0 = 0`; the
evaluators only divide after a zero test, mirroring the Go code). -/
def qinv (a : ℚ) : ℚ :=
  if 0 < a.num then mkRat (a.den : ℤ) a.num.toNat
  else if a.num < 0 then mkRat (-(a.den : ℤ)) (-a.num).toNat
  else mkRat 0 1

/-- Division on the rational model of `float64`. -/
def qdiv (a b : ℚ) : ℚ := qmul a (qinv b)

/-- Token categories: the constructors of the `TokenType` enumeration in
src/tokenizer/tokenizer.go (`NUMBER`, `OPERATOR`, `PAREN`, `FUNCTION`,
`IDENT`, `ASSIGN`) together with the `COMPARISON` and `LOGICAL` categories
that the parser in src/unnamed/part_006 and the tokenizer tests reference
(the tokenizer version declaring those two is not among the source files). -/
inductive TokenType where
  | NUMBER
  | OPERATOR
  | PAREN
  | FUNCTION
  | IDENT
  | ASSIGN
  | COMPARISON
  | LOGICAL
deriving DecidableEq, Repr

/-- A lexical token, mirroring `tokenizer.Token` (fields `Type`, `Value`). -/
structure Token where
  type : TokenType
  value : String
deriving DecidableEq, Repr

/-- Digit run to a natural number, most significant first. -/
def digitsToNat (l : List Char) : ℕ :=
  l.foldl (fun a c => 10 * a + (c.toNat - 48)) 0

/-- Model of Go's `strconv.ParseFloat` restricted to the decimal and
scientific-notation forms relevant here: optional sign, digits with at most
one decimal point and at least one digit overall, then an optional exponent
(`e` or `E`, optional sign, at least one digit), with the entire string
consumed.  The value is exact in the rational model.  (Go additionally
accepts forms such as hexadecimal floats and `Inf`, which no token of this
program's tokenizer ever takes.) -/
def parseFloat (s : String) : Option ℚ :=
  let cs := s.data
  let signed : ℚ × List Char :=
    match cs with
    | '-' :: rest => (mkRat (-1) 1, rest)
    | '+' :: rest => (mkRat 1 1, rest)
    | rest => (mkRat 1 1, rest)
  let sgn := signed.1
  let cs0 := signed.2
  let intPart := cs0.takeWhile Char.isDigit
  let cs1 := cs0.dropWhile Char.isDigit
  let fractioned : List Char × List Char :=
    match cs1 with
    | '.' :: rest => (rest.takeWhile Char.isDigit, rest.dropWhile Char.isDigit)
    | _ => ([], cs1)
  let fracPart := fractioned.1
  let cs2 := fractioned.2
  let mantOk : Bool := !intPart.isEmpty || !fracPart.isEmpty
  let mant : ℚ :=
    qadd (mkRat (digitsToNat intPart) 1) (mkRat (digitsToNat fracPart) (10 ^ fracPart.length))
  match cs2 with
  | [] => if mantOk then some (qmul sgn mant) else none
  | e :: rest =>
    if e = 'e' ∨ e = 'E' then
      let esigned : Bool × List Char :=
        match rest with
        | '+' :: r => (true, r)
        | '-' :: r => (false, r)
        | r => (true, r)
      let eds := esigned.2.takeWhile Char.isDigit
      let rest2 := esigned.2.dropWhile Char.isDigit
      if mantOk && !eds.isEmpty && rest2.isEmpty then
        let scale : ℚ :=
          if esigned.1 then mkRat (10 ^ digitsToNat eds) 1
          else mkRat 1 (10 ^ digitsToNat eds)
        some (qmul (qmul sgn mant) scale)
      else none
    else none

/-- Equality of `Except` results is decidable when both components are;
used to settle concrete runs of the pipeline by evaluation. -/
instance {e a : Type} [DecidableEq e] [DecidableEq a] : DecidableEq (Except e a) := fun
  | Except.ok x, Except.ok y =>
    if h : x = y then Decidable.isTrue (by rw [h])
    else Decidable.isFalse (fun hh => absurd (Except.ok.inj hh) h)
  | Except.ok x, Except.error y => Decidable.isFalse (fun hh => Except.noConfusion hh)
  | Except.error x, Except.ok y => Decidable.isFalse (fun hh => Except.noConfusion hh)
  | Except.error x, Except.error y =>
    if h : x = y then Decidable.isTrue (by rw [h])
    else Decidable.isFalse (fun hh => absurd (Except.error.inj hh) h)

/-- Go's `containsDot` from src/tokenizer/tokenizer.go: decimal-point test on
the number buffer. -/
def containsDot (s : List Char) : Bool := s.contains '.'

/-- The `addToken` closure of `Tokenize` in src/tokenizer/tokenizer.go:
appends a token, inserting an implicit `Operator("*")` when the last emitted
token is a `NUMBER` or a closing `PAREN` and the new token is a `NUMBER`, a
`FUNCTION` or an opening `PAREN`; the factorial token `"!"` is exempt. -/
def addToken (tokens : List Token) (t : Token) : List Token :=
  match tokens.getLast? with
  | none => tokens ++ [t]
  | some last =>
    if t.type = TokenType.FUNCTION ∧ t.value = "!" then tokens ++ [t]
    else if (last.type = TokenType.NUMBER ∨
          (last.type = TokenType.PAREN ∧ last.value = ")")) ∧
        (t.type = TokenType.NUMBER ∨ t.type = TokenType.FUNCTION ∨
          (t.type = TokenType.PAREN ∧ t.value = "(")) then
      tokens ++ [Token.mk TokenType.OPERATOR "*", t]
    else tokens ++ [t]

/-- The recurring `if numberBuffer != "" { addToken(NUMBER); numberBuffer = "" }`
flush pattern of `Tokenize`. -/
def flushNum (nb : List Char) (tokens : List Token) : List Token :=
  if nb.isEmpty then tokens
  else addToken tokens (Token.mk TokenType.NUMBER (String.mk nb))

/-- The recurring `if wordBuffer != "" { addToken(FUNCTION); wordBuffer = "" }`
flush pattern of `Tokenize`. -/
def flushWord (wb : List Char) (tokens : List Token) : List Token :=
  if wb.isEmpty then tokens
  else addToken tokens (Token.mk TokenType.FUNCTION (String.mk wb))

/-- The character loop of `Tokenize` from src/tokenizer/tokenizer.go.
`input` is the unread suffix, `nb` and `wb` the number and word buffers,
`tokens` the tokens emitted so far.  The `wb` parameter models the outer
`wordBuffer` variable; the letter case of this tokenizer version shadows it
with a fresh local variable (so the outer one in fact stays empty), appends
an `IDENT` token directly — bypassing both the buffer flushes and
`addToken` — and leaves `i` on the first non-word character, which the outer
loop's `i++` then skips.  All three quirks are reproduced faithfully. -/
def tokenizeLoop : ℕ → List Char → List Char → List Char → List Token →
    Except String (List Token)
  | 0, _, _, _, _ => Except.error "tokenizer out of fuel"
  | _ + 1, [], nb, wb, tokens => Except.ok (flushWord wb (flushNum nb tokens))
  | fuel + 1, c :: rest, nb, wb, tokens =>
    if c.isDigit ∨ c = '.' then
      if c = '.' ∧ containsDot nb then
        Except.error ("invalid number: multiple decimals in " ++ String.mk (nb ++ [c]))
      else
        let nb1 := nb ++ [c]
        match rest with
        | e :: rest2 =>
          if e = 'e' ∨ e = 'E' then
            let nb2 := nb1 ++ [e]
            let signed : List Char × List Char :=
              match rest2 with
              | s :: rest3 =>
                if s = '+' ∨ s = '-' then (nb2 ++ [s], rest3) else (nb2, rest2)
              | [] => (nb2, rest2)
            let eds := signed.2.takeWhile Char.isDigit
            let rest4 := signed.2.dropWhile Char.isDigit
            if eds.isEmpty then
              Except.error ("invalid exponent in number: " ++ String.mk signed.1)
            else tokenizeLoop fuel rest4 (signed.1 ++ eds) wb tokens
          else tokenizeLoop fuel rest nb1 wb tokens
        | [] => tokenizeLoop fuel rest nb1 wb tokens
    else if c.isAlpha then
      let w := c :: rest.takeWhile (fun ch => ch.isAlpha ∨ ch.isDigit)
      let rest2 := (rest.dropWhile (fun ch => ch.isAlpha ∨ ch.isDigit)).drop 1
      tokenizeLoop fuel rest2 nb wb (tokens ++ [Token.mk TokenType.IDENT (String.mk w)])
    else if c = '+' ∨ c = '-' ∨ c = '*' ∨ c = '/' ∨ c = '^' then
      tokenizeLoop fuel rest [] []
        (addToken (flushWord wb (flushNum nb tokens))
          (Token.mk TokenType.OPERATOR (String.mk [c])))
    else if c = '=' then
      tokenizeLoop fuel rest nb wb (tokens ++ [Token.mk TokenType.ASSIGN "="])
    else if c = '(' ∨ c = ')' then
      tokenizeLoop fuel rest [] []
        (addToken (flushWord wb (flushNum nb tokens))
          (Token.mk TokenType.PAREN (String.mk [c])))
    else if c = '!' then
      tokenizeLoop fuel rest [] []
        (addToken (flushWord wb (flushNum nb tokens)) (Token.mk TokenType.FUNCTION "!"))
    else if c.isWhitespace then
      tokenizeLoop fuel rest [] [] (flushWord wb (flushNum nb tokens))
    else if c = ',' then
      tokenizeLoop fuel rest [] []
        (addToken (flushWord wb (flushNum nb tokens)) (Token.mk TokenType.OPERATOR ","))
    else Except.error ("invalid character: " ++ String.mk [c])

/-- `Tokenize` from src/tokenizer/tokenizer.go.  The fuel `s.length + 1`
suffices: every loop iteration consumes at least one input character. -/
def Tokenize (s : String) : Except String (List Token) :=
  tokenizeLoop (s.length + 1) s.data [] [] []

/-- AST node categories, the `NodeType` enumeration of the parser in
src/unnamed/part_006 (a superset of the one in src/parser/parser.go). -/
inductive NodeType where
  | NODE_NUMBER
  | NODE_OPERATOR
  | NODE_FUNCTION
  | NODE_ASSIGN
  | NODE_IDENTIFIER
  | NODE_OR
  | NODE_AND
  | NODE_COMPARISON
deriving DecidableEq, Repr

/-- An AST node, mirroring the Go struct `parser.Node` with fields `Type`,
`Value`, `Left`, `Right`, `Children`; the `Option`s model the nilability of
the Go pointers, and the `children` entries model `[]*Node` entries. -/
inductive Node where
  | mk (type : NodeType) (value : String) (left : Option Node)
      (right : Option Node) (children : List (Option Node))

mutual

/-- Structural equality test for nodes (decidable equality is not derivable
for this nested inductive, so it is built from this function below). -/
def Node.beq : Node → Node → Bool
  | Node.mk t1 v1 l1 r1 c1, Node.mk t2 v2 l2 r2 c2 =>
    t1 == t2 && v1 == v2 && Node.obeq l1 l2 && Node.obeq r1 r2 && Node.lbeq c1 c2

/-- Structural equality test for optional nodes. -/
def Node.obeq : Option Node → Option Node → Bool
  | none, none => true
  | some a, some b => Node.beq a b
  | _, _ => false

/-- Structural equality test for lists of optional nodes. -/
def Node.lbeq : List (Option Node) → List (Option Node) → Bool
  | [], [] => true
  | a :: as, b :: bs => Node.obeq a b && Node.lbeq as bs
  | _, _ => false

end

/-- The `Type` field of a node. -/
def Node.type : Node → NodeType
  | Node.mk t _ _ _ _ => t

/-- The `Value` field of a node. -/
def Node.value : Node → String
  | Node.mk _ v _ _ _ => v

/-- The `Left` field of a node. -/
def Node.left : Node → Option Node
  | Node.mk _ _ l _ _ => l

/-- The `Right` field of a node. -/
def Node.right : Node → Option Node
  | Node.mk _ _ _ r _ => r

/-- The `Children` field of a node. -/
def Node.children : Node → List (Option Node)
  | Node.mk _ _ _ _ cs => cs

/-- Literal node `&Node{Type: NODE_NUMBER, Value: v}`. -/
def numNode (v : String) : Node := Node.mk NodeType.NODE_NUMBER v none none []

/-- Identifier node `&Node{Type: NODE_IDENTIFIER, Value: v}`. -/
def identNode (v : String) : Node := Node.mk NodeType.NODE_IDENTIFIER v none none []

/-- Binary operator node `&Node{Type: NODE_OPERATOR, Value: v, Left: l, Right: r}`. -/
def opNode (v : String) (l r : Option Node) : Node :=
  Node.mk NodeType.NODE_OPERATOR v l r []

/-- Unary negation node `&Node{Type: NODE_OPERATOR, Value: "neg", Left: child}`. -/
def negNode (child : Option Node) : Node :=
  Node.mk NodeType.NODE_OPERATOR "neg" child none []

/-- Function-call node `&Node{Type: NODE_FUNCTION, Value: v, Children: args}`. -/
def fnNode (v : String) (args : List (Option Node)) : Node :=
  Node.mk NodeType.NODE_FUNCTION v none none args

/-- Assignment node `&Node{Type: NODE_ASSIGN, Value: name, Right: r}`. -/
def assignNode (name : String) (r : Option Node) : Node :=
  Node.mk NodeType.NODE_ASSIGN name none r []

/-- Logical-or node `&Node{Type: NODE_OR, Value: "||", Left: l, Right: r}`. -/
def orNode (l r : Option Node) : Node := Node.mk NodeType.NODE_OR "||" l r []

/-- Logical-and node `&Node{Type: NODE_AND, Value: "&&", Left: l, Right: r}`. -/
def andNode (l r : Option Node) : Node := Node.mk NodeType.NODE_AND "&&" l r []

/-- Comparison node `&Node{Type: NODE_COMPARISON, Value: v, Left: l, Right: r}`. -/
def cmpNode (v : String) (l r : Option Node) : Node :=
  Node.mk NodeType.NODE_COMPARISON v l r []

/-- Fuel-exhaustion marker; never reached for the fuel bounds used below. -/
def outOfFuel : String := "parser out of fuel"

mutual

/-- `(*Parser).ParseExpression` from src/unnamed/part_006: rejects an empty
token sequence, parses one assignment-level expression from position 0, and
rejects leftover tokens. -/
def ParseExpressionF : ℕ → List Token → Except String (Option Node)
  | 0, _ => Except.error outOfFuel
  | fuel + 1, toks =>
    if toks.length = 0 then Except.error "empty expression"
    else
      match parseAssignmentF fuel toks 0 with
      | Except.error e => Except.error e
      | Except.ok (node, pos) =>
        if pos < toks.length then
          let tok := toks.getD pos (Token.mk TokenType.NUMBER "")
          Except.error ("unexpected token '" ++ tok.value ++ "' at position " ++
            toString pos)
        else Except.ok node

/-- `parseAssignment` from src/unnamed/part_006: a two-token
`IDENT` `ASSIGN` lookahead introduces an assignment whose right-hand side is
parsed at the logical-or level; otherwise parsing continues at the
logical-or level. -/
def parseAssignmentF : ℕ → List Token → ℕ → Except String (Option Node × ℕ)
  | 0, _, _ => Except.error outOfFuel
  | fuel + 1, toks, pos =>
    match toks.get? pos, toks.get? (pos + 1) with
    | some t0, some t1 =>
      if t0.type = TokenType.IDENT ∧ t1.type = TokenType.ASSIGN then
        match parseLogicalOrF fuel toks (pos + 2) with
        | Except.error e => Except.error e
        | Except.ok (rightNode, pos2) =>
          match rightNode with
          | none => Except.error "expected expression after '='"
          | some rn => Except.ok (some (assignNode t0.value (some rn)), pos2)
      else parseLogicalOrF fuel toks pos
    | _, _ => parseLogicalOrF fuel toks pos
termination_by structural fuel => fuel

/-- `parseLogicalOr` from src/unnamed/part_006 (head parse; the Go `for`
loop is `parseLogicalOrLoopF`). -/
def parseLogicalOrF : ℕ → List Token → ℕ → Except String (Option Node × ℕ)
  | 0, _, _ => Except.error outOfFuel
  | fuel + 1, toks, pos =>
    match parseLogicalAndF fuel toks pos with
    | Except.error e => Except.error e
    | Except.ok (node, pos1) => parseLogicalOrLoopF fuel toks node pos1
termination_by structural fuel => fuel

/-- The `||` chain loop of `parseLogicalOr`. -/
def parseLogicalOrLoopF : ℕ → List Token → Option Node → ℕ →
    Except String (Option Node × ℕ)
  | 0, _, _, _ => Except.error outOfFuel
  | fuel + 1, toks, node, pos =>
    match toks.get? pos with
    | some tok =>
      if tok.type = TokenType.LOGICAL ∧ tok.value = "||" then
        match parseLogicalAndF fuel toks (pos + 1) with
        | Except.error e => Except.error e
        | Except.ok (rightNode, pos2) =>
          match rightNode with
          | none => Except.error ("expected expression after '" ++ tok.value ++ "'")
          | some rn => parseLogicalOrLoopF fuel toks (some (orNode node (some rn))) pos2
      else Except.ok (node, pos)
    | none => Except.ok (node, pos)
termination_by structural fuel => fuel

/-- `parseLogicalAnd` from src/unnamed/part_006. -/
def parseLogicalAndF : ℕ → List Token → ℕ → Except String (Option Node × ℕ)
  | 0, _, _ => Except.error outOfFuel
  | fuel + 1, toks, pos =>
    match parseComparisonF fuel toks pos with
    | Except.error e => Except.error e
    | Except.ok (node, pos1) => parseLogicalAndLoopF fuel toks node pos1
termination_by structural fuel => fuel

/-- The `&&` chain loop of `parseLogicalAnd`. -/
def parseLogicalAndLoopF : ℕ → List Token → Option Node → ℕ →
    Except String (Option Node × ℕ)
  | 0, _, _, _ => Except.error outOfFuel
  | fuel + 1, toks, node, pos =>
    match toks.get? pos with
    | some tok =>
      if tok.type = TokenType.LOGICAL ∧ tok.value = "&&" then
        match parseComparisonF fuel toks (pos + 1) with
        | Except.error e => Except.error e
        | Except.ok (rightNode, pos2) =>
          match rightNode with
          | none => Except.error ("expected expression after '" ++ tok.value ++ "'")
          | some rn => parseLogicalAndLoopF fuel toks (some (andNode node (some rn))) pos2
      else Except.ok (node, pos)
    | none => Except.ok (node, pos)
termination_by structural fuel => fuel

/-- `parseComparison` from src/unnamed/part_006. -/
def parseComparisonF : ℕ → List Token → ℕ → Except String (Option Node × ℕ)
  | 0, _, _ => Except.error outOfFuel
  | fuel + 1, toks, pos =>
    match parseAddSubF fuel toks pos with
    | Except.error e => Except.error e
    | Except.ok (node, pos1) => parseComparisonLoopF fuel toks node pos1
termination_by structural fuel => fuel

/-- The comparison chain loop of `parseComparison` (any `COMPARISON` token). -/
def parseComparisonLoopF : ℕ → List Token → Option Node → ℕ →
    Except String (Option Node × ℕ)
  | 0, _, _, _ => Except.error outOfFuel
  | fuel + 1, toks, node, pos =>
    match toks.get? pos with
    | some tok =>
      if tok.type = TokenType.COMPARISON then
        match parseAddSubF fuel toks (pos + 1) with
        | Except.error e => Except.error e
        | Except.ok (rightNode, pos2) =>
          match rightNode with
          | none => Except.error ("expected expression after '" ++ tok.value ++ "'")
          | some rn =>
            parseComparisonLoopF fuel toks (some (cmpNode tok.value node (some rn))) pos2
      else Except.ok (node, pos)
    | none => Except.ok (node, pos)
termination_by structural fuel => fuel

/-- `parseAddSub` from src/unnamed/part_006, including its nil check. -/
def parseAddSubF : ℕ → List Token → ℕ → Except String (Option Node × ℕ)
  | 0, _, _ => Except.error outOfFuel
  | fuel + 1, toks, pos =>
    match parseMulDivF fuel toks pos with
    | Except.error e => Except.error e
    | Except.ok (node, pos1) =>
      match node with
      | none => Except.error "expected expression"
      | some n => parseAddSubLoopF fuel toks (some n) pos1
termination_by structural fuel => fuel

/-- The `+`/`-` chain loop of `parseAddSub` (left-associative). -/
def parseAddSubLoopF : ℕ → List Token → Option Node → ℕ →
    Except String (Option Node × ℕ)
  | 0, _, _, _ => Except.error outOfFuel
  | fuel + 1, toks, node, pos =>
    match toks.get? pos with
    | some tok =>
      if tok.type = TokenType.OPERATOR ∧ (tok.value = "+" ∨ tok.value = "-") then
        match parseMulDivF fuel toks (pos + 1) with
        | Except.error e => Except.error e
        | Except.ok (right, pos2) =>
          match right with
          | none => Except.error ("expected expression after '" ++ tok.value ++ "'")
          | some r =>
            parseAddSubLoopF fuel toks (some (opNode tok.value node (some r))) pos2
      else Except.ok (node, pos)
    | none => Except.ok (node, pos)
termination_by structural fuel => fuel

/-- `parseMulDiv` from src/unnamed/part_006, including its nil check. -/
def parseMulDivF : ℕ → List Token → ℕ → Except String (Option Node × ℕ)
  | 0, _, _ => Except.error outOfFuel
  | fuel + 1, toks, pos =>
    match parseUnaryF fuel toks pos with
    | Except.error e => Except.error e
    | Except.ok (node, pos1) =>
      match node with
      | none => Except.error "expected expression"
      | some n => parseMulDivLoopF fuel toks (some n) pos1
termination_by structural fuel => fuel

/-- The `*`/`/` chain loop of `parseMulDiv` (left-associative). -/
def parseMulDivLoopF : ℕ → List Token → Option Node → ℕ →
    Except String (Option Node × ℕ)
  | 0, _, _, _ => Except.error outOfFuel
  | fuel + 1, toks, node, pos =>
    match toks.get? pos with
    | some tok =>
      if tok.type = TokenType.OPERATOR ∧ (tok.value = "*" ∨ tok.value = "/") then
        match parseUnaryF fuel toks (pos + 1) with
        | Except.error e => Except.error e
        | Except.ok (right, pos2) =>
          match right with
          | none => Except.error ("expected expression after '" ++ tok.value ++ "'")
          | some r =>
            parseMulDivLoopF fuel toks (some (opNode tok.value node (some r))) pos2
      else Except.ok (node, pos)
    | none => Except.ok (node, pos)
termination_by structural fuel => fuel

/-- `parseUnary` from src/unnamed/part_006: a leading `+` or `-` operator
parses its operand at the exponent level, so unary minus binds looser than
`^`; unary plus is dropped. -/
def parseUnaryF : ℕ → List Token → ℕ → Except String (Option Node × ℕ)
  | 0, _, _ => Except.error outOfFuel
  | fuel + 1, toks, pos =>
    match toks.get? pos with
    | none => Except.error "unexpected end of expression"
    | some tok =>
      if tok.type = TokenType.OPERATOR ∧ (tok.value = "-" ∨ tok.value = "+") then
        match parseExponentF fuel toks (pos + 1) with
        | Except.error e => Except.error e
        | Except.ok (child, pos2) =>
          match child with
          | none =>
            Except.error ("expected expression after unary '" ++ tok.value ++ "'")
          | some c =>
            if tok.value = "-" then Except.ok (some (negNode (some c)), pos2)
            else Except.ok (some c, pos2)
      else parseExponentF fuel toks pos
termination_by structural fuel => fuel

/-- `parseExponent` from src/unnamed/part_006: right-associative, the right
operand recursing back into `parseExponent`. -/
def parseExponentF : ℕ → List Token → ℕ → Except String (Option Node × ℕ)
  | 0, _, _ => Except.error outOfFuel
  | fuel + 1, toks, pos =>
    match parsePostfixF fuel toks pos with
    | Except.error e => Except.error e
    | Except.ok (node, pos1) =>
      match node with
      | none => Except.error "expected expression"
      | some n =>
        match toks.get? pos1 with
        | some tok =>
          if tok.type = TokenType.OPERATOR ∧ tok.value = "^" then
            match parseExponentF fuel toks (pos1 + 1) with
            | Except.error e => Except.error e
            | Except.ok (right, pos2) =>
              match right with
              | none => Except.error "expected expression after '^'"
              | some r => Except.ok (some (opNode "^" (some n) (some r)), pos2)
          else Except.ok (some n, pos1)
        | none => Except.ok (some n, pos1)
termination_by structural fuel => fuel

/-- `parsePostfix` from src/unnamed/part_006, including its nil check. -/
def parsePostfixF : ℕ → List Token → ℕ → Except String (Option Node × ℕ)
  | 0, _, _ => Except.error outOfFuel
  | fuel + 1, toks, pos =>
    match parseFactorF fuel toks pos with
    | Except.error e => Except.error e
    | Except.ok (node, pos1) =>
      match node with
      | none => Except.error "expected expression"
      | some n => parsePostfixLoopF fuel toks n pos1
termination_by structural fuel => fuel

/-- The factorial chain loop of `parsePostfix`: each `FUNCTION "!"` token
wraps the node as the single argument of a `NODE_FUNCTION "!"` node. -/
def parsePostfixLoopF : ℕ → List Token → Node → ℕ →
    Except String (Option Node × ℕ)
  | 0, _, _, _ => Except.error outOfFuel
  | fuel + 1, toks, n, pos =>
    match toks.get? pos with
    | some tok =>
      if tok.type = TokenType.FUNCTION ∧ tok.value = "!" then
        parsePostfixLoopF fuel toks (fnNode "!" [some n]) (pos + 1)
      else Except.ok (some n, pos)
    | none => Except.ok (some n, pos)
termination_by structural fuel => fuel

/-- The argument-list block of `parseFactor` in src/unnamed/part_006
(the code after consuming the opening parenthesis, identical in the `IDENT`
and `FUNCTION` branches, factored once here): an empty list if the next
token is `)` or the input is exhausted, otherwise one assignment-level
expression followed by the comma loop. -/
def parseCallArgsF : ℕ → List Token → ℕ →
    Except String (List (Option Node) × ℕ)
  | 0, _, _ => Except.error outOfFuel
  | fuel + 1, toks, pos =>
    match toks.get? pos with
    | some t =>
      if t.value ≠ ")" then
        match parseAssignmentF fuel toks pos with
        | Except.error e => Except.error e
        | Except.ok (arg, pos1) => parseArgsLoopF fuel toks [arg] pos1
      else Except.ok ([], pos)
    | none => Except.ok ([], pos)
termination_by structural fuel => fuel

/-- The comma loop of the argument-list block. -/
def parseArgsLoopF : ℕ → List Token → List (Option Node) → ℕ →
    Except String (List (Option Node) × ℕ)
  | 0, _, _, _ => Except.error outOfFuel
  | fuel + 1, toks, args, pos =>
    match toks.get? pos with
    | some t =>
      if t.value = "," then
        match parseAssignmentF fuel toks (pos + 1) with
        | Except.error e => Except.error e
        | Except.ok (arg, pos1) => parseArgsLoopF fuel toks (args ++ [arg]) pos1
      else Except.ok (args, pos)
    | none => Except.ok (args, pos)
termination_by structural fuel => fuel

/-- `parseFactor` from src/unnamed/part_006: primary expressions.  A missing
closing parenthesis after a function call's argument list or after a
parenthesized subexpression is an "unmatched opening parenthesis" error; a
bare factorial token backtracks with an error; an empty parenthesized group
is an error; a `PAREN` token that is neither `(` nor `)` falls through the
Go `switch` leaving `node` nil and returns `(nil, nil)`. -/
def parseFactorF : ℕ → List Token → ℕ → Except String (Option Node × ℕ)
  | 0, _, _ => Except.error outOfFuel
  | fuel + 1, toks, pos =>
    match toks.get? pos with
    | none => Except.error "unexpected end of expression"
    | some tok =>
      match tok.type with
      | TokenType.NUMBER => Except.ok (some (numNode tok.value), pos + 1)
      | TokenType.IDENT =>
        match toks.get? (pos + 1) with
        | some t1 =>
          if t1.value = "(" then
            match parseCallArgsF fuel toks (pos + 2) with
            | Except.error e => Except.error e
            | Except.ok (args, pos2) =>
              match toks.get? pos2 with
              | some t2 =>
                if t2.value = ")" then
                  Except.ok (some (fnNode tok.value args), pos2 + 1)
                else
                  Except.error ("unmatched opening parenthesis in function call '" ++
                    tok.value ++ "'")
              | none =>
                Except.error ("unmatched opening parenthesis in function call '" ++
                  tok.value ++ "'")
          else Except.ok (some (identNode tok.value), pos + 1)
        | none => Except.ok (some (identNode tok.value), pos + 1)
      | TokenType.FUNCTION =>
        if tok.value = "!" then Except.error "unexpected factorial operator"
        else
          match toks.get? (pos + 1) with
          | some t1 =>
            if t1.value = "(" then
              match parseCallArgsF fuel toks (pos + 2) with
              | Except.error e => Except.error e
              | Except.ok (args, pos2) =>
                match toks.get? pos2 with
                | some t2 =>
                  if t2.value = ")" then
                    Except.ok (some (fnNode tok.value args), pos2 + 1)
                  else
                    Except.error ("unmatched opening parenthesis in function '" ++
                      tok.value ++ "'")
                | none =>
                  Except.error ("unmatched opening parenthesis in function '" ++
                    tok.value ++ "'")
            else Except.ok (some (identNode tok.value), pos + 1)
          | none => Except.ok (some (identNode tok.value), pos + 1)
      | TokenType.PAREN =>
        if tok.value = "(" then
          match parseAssignmentF fuel toks (pos + 1) with
          | Except.error e => Except.error e
          | Except.ok (sub, pos2) =>
            match sub with
            | none => Except.error "empty parentheses"
            | some sb =>
              match toks.get? pos2 with
              | some t2 =>
                if t2.value = ")" then Except.ok (some sb, pos2 + 1)
                else Except.error "unmatched opening parenthesis"
              | none => Except.error "unmatched opening parenthesis"
        else if tok.value = ")" then Except.error "unexpected closing parenthesis"
        else Except.ok (none, pos + 1)
      | _ => Except.error ("unexpected token: " ++ tok.value)

termination_by structural fuel => fuel
end

/-- Fuel bound for the parser: the call-stack depth of the Go parser is at
most about thirteen frames per remaining token plus a constant, so this
bound is never reached. -/
def parserFuel (toks : List Token) : ℕ := 32 * (toks.length + 1)

/-- `ParseExpression` packaged with sufficient fuel. -/
def parseTokens (toks : List Token) : Except String (Option Node) :=
  ParseExpressionF (parserFuel toks) toks

/-- Model of Go `math.Floor` on the rational model (floor as a float). -/
def qfloor (a : ℚ) : ℚ := mkRat (Int.fdiv a.num a.den) 1

/-- Model of Go `math.Ceil` on the rational model. -/
def qceil (a : ℚ) : ℚ := qneg (qfloor (qneg a))

/-- Model of Go `math.Abs` on the rational model. -/
def qabs (a : ℚ) : ℚ := if a < mkRat 0 1 then qneg a else a

/-- Model of Go `math.Max` on the rational model (the claim-irrelevant
NaN/infinity special cases of the float version do not arise over `ℚ`). -/
def qmax (a b : ℚ) : ℚ := if a < b then b else a

/-- Model of Go `math.Min` on the rational model. -/
def qmin (a b : ℚ) : ℚ := if b < a then b else a

/-- Truncation toward zero (`int(…)` / the implicit truncation in Go's
`math.Mod`); `Int` division already truncates toward zero. -/
def qtrunc (a : ℚ) : ℚ := mkRat (a.num / (a.den : ℤ)) 1

/-- Model of Go `math.Mod`: truncated remainder with the sign of the
dividend (for a zero modulus Go returns NaN; the model returns `x`, a case
no claim evaluates). -/
def goMod (x y : ℚ) : ℚ := qsub x (qmul y (qtrunc (qdiv x y)))

/-- The natural-power loop underlying the integer case of `math.Pow`. -/
def qpowNat (l : ℚ) : ℕ → ℚ
  | 0 => mkRat 1 1
  | n + 1 => qmul (qpowNat l n) l

/-- Model of Go `math.Pow` on the rational model: exact for integer
exponents, the only exponents any claim evaluates.  A non-integer exponent
generally has an irrational result; the rational model maps that case to 0.
(`math.Pow(0, -k)` is `+Inf` in Go while this model yields 0; no claim and
no theorem below evaluates those cases.) -/
def goPow (l r : ℚ) : ℚ :=
  if r.den = 1 then
    if 0 ≤ r.num then qpowNat l r.num.toNat
    else qinv (qpowNat l (-r.num).toNat)
  else mkRat 0 1

/-- Go's `%q` format verb: the string in double quotes (Go's additional
escaping of special characters inside the string is elided; no claim
exercises it). -/
def quote (s : String) : String := "\"" ++ s ++ "\""

/-- The accumulation loop of `factorial`:
`result := 1.0; for i := 2; i <= k; i++ { result *= float64(i) }`.
Exact over `ℚ`; the float version accumulates rounding above `22!`, but
every claim only observes success or failure of `factorial`, which is
decided by the guards on the input, not by the product. -/
def factLoop (k : ℕ) : ℚ :=
  (List.range' 2 (k - 1)).foldl (fun acc i => qmul acc (mkRat i 1)) (mkRat 1 1)

/-- `factorial` from src/evaluator/evaluator.go (identical in
src/unnamed/part_002): rejects negative and non-integer inputs, rejects
inputs above 170, and otherwise multiplies up.  The `%g` interpolation of
Go's second message is elided. -/
def factorial (n : ℚ) : Except String ℚ :=
  if n < mkRat 0 1 ∨ n ≠ qfloor n then
    Except.error "factorial only defined for non-negative integers"
  else if mkRat 170 1 < n then
    Except.error "factorial too large: exceeds maximum representable value (limit: 170!)"
  else Except.ok (factLoop n.num.toNat)

/-- Abstract stand-ins for the transcendental `math` library functions the
evaluators dispatch to.  Their values are irrational in general, hence not
representable in the rational model; no claim depends on them, so the
evaluators are parameterized over this record.  The degree/radian conversion
factors (`* math.Pi / 180` and `* 180 / math.Pi`), being themselves
irrational, are folded into the abstract functions. -/
structure RealFns where
  sin : ℚ → ℚ
  cos : ℚ → ℚ
  tan : ℚ → ℚ
  asin : ℚ → ℚ
  acos : ℚ → ℚ
  atan : ℚ → ℚ
  log : ℚ → ℚ
  log10 : ℚ → ℚ
  sqrt : ℚ → ℚ
  exp : ℚ → ℚ

/-- A trivial instantiation of `RealFns`, used only to evaluate concrete
runs whose control flow never consults the abstract functions. -/
def zeroFns : RealFns :=
  ⟨fun _ => mkRat 0 1, fun _ => mkRat 0 1, fun _ => mkRat 0 1, fun _ => mkRat 0 1,
   fun _ => mkRat 0 1, fun _ => mkRat 0 1, fun _ => mkRat 0 1, fun _ => mkRat 0 1,
   fun _ => mkRat 0 1, fun _ => mkRat 0 1⟩

/-- Fuel-exhaustion marker for the evaluators; never reached for the fuel
values used below. -/
def evalOutOfFuel : String := "eval out of fuel"

/-- `Eval` from src/evaluator/evaluator.go.  Faithful points: a nil node is
the error `Invalid`; a `NODE_OPERATOR` node evaluates `Left` then `Right`
before dispatching on `Value` (there is no `"neg"` case in this version, so
a unary-minus node sends the nil `Right` into `Eval` and fails); `/` errors
on a zero right operand before dividing; the `"!"` case calls `factorial`
and on error returns `(0, nil)`, DISCARDING the error; `pow`/`max`/`min`
demand a second child; unknown operators, unknown functions and unhandled
node types (`NODE_ASSIGN`, `NODE_IDENTIFIER`, and the logical/comparison
types) are errors. -/
def EvalF (fns : RealFns) : ℕ → Option Node → Except String ℚ
  | 0, _ => Except.error evalOutOfFuel
  | _ + 1, none => Except.error "Invalid"
  | fuel + 1, some (Node.mk t v l r cs) =>
    match t with
    | NodeType.NODE_NUMBER =>
      match parseFloat v with
      | none => Except.error ("invalid number " ++ quote v)
      | some val => Except.ok val
    | NodeType.NODE_OPERATOR =>
      match EvalF fns fuel l with
      | Except.error e => Except.error e
      | Except.ok left =>
        match EvalF fns fuel r with
        | Except.error e => Except.error e
        | Except.ok right =>
          if v = "+" then Except.ok (qadd left right)
          else if v = "-" then Except.ok (qsub left right)
          else if v = "*" then Except.ok (qmul left right)
          else if v = "/" then
            if right = mkRat 0 1 then Except.error "division by zero"
            else Except.ok (qdiv left right)
          else if v = "^" then Except.ok (goPow left right)
          else Except.error ("unknown operator " ++ quote v)
    | NodeType.NODE_FUNCTION =>
      match cs with
      | [] => Except.error ("function " ++ quote v ++ " requires at least 1 argument")
      | c0 :: crest =>
        match EvalF fns fuel c0 with
        | Except.error e => Except.error e
        | Except.ok arg1 =>
          if v = "sin" then Except.ok (fns.sin arg1)
          else if v = "cos" then Except.ok (fns.cos arg1)
          else if v = "tan" then Except.ok (fns.tan arg1)
          else if v = "asin" then Except.ok (fns.asin arg1)
          else if v = "acos" then Except.ok (fns.acos arg1)
          else if v = "atan" then Except.ok (fns.atan arg1)
          else if v = "log" then Except.ok (fns.log arg1)
          else if v = "log10" then Except.ok (fns.log10 arg1)
          else if v = "sqrt" then Except.ok (fns.sqrt arg1)
          else if v = "exp" then Except.ok (fns.exp arg1)
          else if v = "abs" then Except.ok (qabs arg1)
          else if v = "ceil" then Except.ok (qceil arg1)
          else if v = "floor" then Except.ok (qfloor arg1)
          else if v = "!" then
            match factorial arg1 with
            | Except.error _ => Except.ok (mkRat 0 1)
            | Except.ok val => Except.ok val
          else if v = "pow" ∨ v = "max" ∨ v = "min" then
            match crest with
            | [] => Except.error ("function " ++ quote v ++ " requires 2 arguments")
            | c1 :: _ =>
              match EvalF fns fuel c1 with
              | Except.error e => Except.error e
              | Except.ok arg2 =>
                if v = "pow" then Except.ok (goPow arg1 arg2)
                else if v = "max" then Except.ok (qmax arg1 arg2)
                else Except.ok (qmin arg1 arg2)
          else Except.error ("unknown function " ++ quote v)
    | _ => Except.error "invalid node type"
termination_by structural fuel => fuel

/-- `Eval` from the newer evaluator version in src/unnamed/part_002: adds
the `"neg"` operator case (evaluating only `Left`), domain checks for the
inverse trigonometric and logarithmic functions, the `tan` asymptote check
(`math.Mod(arg, 180) == 90`), an overflow guard on `exp`, domain checks on
`pow` — and PROPAGATES factorial errors instead of discarding them.  The
`math.IsInf` overflow test after `pow` is identically false over the
rational model and the `%g` interpolations of the Go messages are elided. -/
def EvalV2F (fns : RealFns) : ℕ → Option Node → Except String ℚ
  | 0, _ => Except.error evalOutOfFuel
  | _ + 1, none => Except.error "Invalid"
  | fuel + 1, some (Node.mk t v l r cs) =>
    match t with
    | NodeType.NODE_NUMBER =>
      match parseFloat v with
      | none => Except.error ("invalid number " ++ quote v)
      | some val => Except.ok val
    | NodeType.NODE_OPERATOR =>
      if v = "neg" then
        match EvalV2F fns fuel l with
        | Except.error e => Except.error e
        | Except.ok left => Except.ok (qneg left)
      else
        match EvalV2F fns fuel l with
        | Except.error e => Except.error e
        | Except.ok left =>
          match EvalV2F fns fuel r with
          | Except.error e => Except.error e
          | Except.ok right =>
            if v = "+" then Except.ok (qadd left right)
            else if v = "-" then Except.ok (qsub left right)
            else if v = "*" then Except.ok (qmul left right)
            else if v = "/" then
              if right = mkRat 0 1 then Except.error "division by zero"
              else Except.ok (qdiv left right)
            else if v = "^" then Except.ok (goPow left right)
            else Except.error ("unknown operator " ++ quote v)
    | NodeType.NODE_FUNCTION =>
      match cs with
      | [] => Except.error ("function " ++ quote v ++ " requires at least 1 argument")
      | c0 :: crest =>
        match EvalV2F fns fuel c0 with
        | Except.error e => Except.error e
        | Except.ok arg1 =>
          if v = "sin" then Except.ok (fns.sin arg1)
          else if v = "cos" then Except.ok (fns.cos arg1)
          else if v = "tan" then
            if goMod arg1 (mkRat 180 1) = mkRat 90 1 then
              Except.error "tan: undefined (asymptote)"
            else Except.ok (fns.tan arg1)
          else if v = "asin" then
            if arg1 < mkRat (-1) 1 ∨ mkRat 1 1 < arg1 then
              Except.error "asin: domain error - input must be between -1 and 1"
            else Except.ok (fns.asin arg1)
          else if v = "acos" then
            if arg1 < mkRat (-1) 1 ∨ mkRat 1 1 < arg1 then
              Except.error "acos: domain error - input must be between -1 and 1"
            else Except.ok (fns.acos arg1)
          else if v = "atan" then Except.ok (fns.atan arg1)
          else if v = "log" then
            if arg1 ≤ mkRat 0 1 then
              Except.error "log: domain error - logarithm undefined for non-positive numbers"
            else Except.ok (fns.log arg1)
          else if v = "log10" then
            if arg1 ≤ mkRat 0 1 then
              Except.error "log10: domain error - logarithm undefined for non-positive numbers"
            else Except.ok (fns.log10 arg1)
          else if v = "sqrt" then
            if arg1 < mkRat 0 1 then
              Except.error "sqrt: domain error - cannot take square root of negative number"
            else Except.ok (fns.sqrt arg1)
          else if v = "exp" then
            if mkRat 709 1 < arg1 then
              Except.error "exp: overflow error - would exceed maximum representable value"
            else Except.ok (fns.exp arg1)
          else if v = "abs" then Except.ok (qabs arg1)
          else if v = "ceil" then Except.ok (qceil arg1)
          else if v = "floor" then Except.ok (qfloor arg1)
          else if v = "!" then
            match factorial arg1 with
            | Except.error e => Except.error e
            | Except.ok val => Except.ok val
          else if v = "pow" ∨ v = "max" ∨ v = "min" then
            match crest with
            | [] => Except.error ("function " ++ quote v ++ " requires 2 arguments")
            | c1 :: _ =>
              match EvalV2F fns fuel c1 with
              | Except.error e => Except.error e
              | Except.ok arg2 =>
                if v = "pow" then
                  if arg1 = mkRat 0 1 ∧ arg2 < mkRat 0 1 then
                    Except.error "pow: domain error - 0 raised to negative power is undefined"
                  else if arg1 < mkRat 0 1 ∧ arg2 ≠ qfloor arg2 then
                    Except.error "pow: domain error - negative base with non-integer exponent"
                  else Except.ok (goPow arg1 arg2)
                else if v = "max" then Except.ok (qmax arg1 arg2)
                else Except.ok (qmin arg1 arg2)
          else Except.error ("unknown function " ++ quote v)
    | _ => Except.error "invalid node type"
termination_by structural fuel => fuel

/-- Lookup in a variable environment.  Go's `map[string]float64` is
modelled as an association list whose lookup takes the most recent binding;
`envInsert` prepends, which is observationally the map's update. -/
def envLookup (env : List (String × ℚ)) (x : String) : Option ℚ :=
  match env with
  | [] => none
  | (y, v) :: rest => if y = x then some v else envLookup rest x

/-- Insert or update a binding (see `envLookup`). -/
def envInsert (env : List (String × ℚ)) (x : String) (v : ℚ) :
    List (String × ℚ) :=
  (x, v) :: env

/-- Modelled from the spec: the final evaluator — the `evaluator` package
version holding the variable table `Vars` and handling `NODE_ASSIGN`,
`NODE_IDENTIFIER`, `NODE_COMPARISON`, `NODE_AND` and `NODE_OR` — is not
among the source files; only its tests (src/unnamed/part_003), its callers
(src/main.go reads `evaluator.Vars`) and the parser producing those node
types (src/unnamed/part_006) are.  Following spec §4.3 and §7: an
Assignment evaluates its right-hand subtree first, stores the value under
its name, and returns that value; an Identifier resolves first against the
environment, then against the constant table, and is otherwise an
undefined-variable error; Comparison and Logical nodes evaluate both
operands eagerly (no short-circuit) and yield exactly 1.0 or 0.0, a value
being truthy iff non-zero; `/` with a zero right operand is a
division-by-zero error; UnaryOp `neg` is numeric negation with no failure
mode; a failing right-hand side leaves the environment unchanged.  Of the
function library only factorial — the single function any claim
evaluates — is modelled (per spec §9 its error propagates); any other
function name yields an unknown-function error here. -/
def evalEnvF (fns : RealFns) (consts : List (String × ℚ)) :
    ℕ → Option Node → List (String × ℚ) →
    Except String (ℚ × List (String × ℚ))
  | 0, _, _ => Except.error evalOutOfFuel
  | _ + 1, none, _ => Except.error "Invalid"
  | fuel + 1, some (Node.mk t v l r cs), env =>
    match t with
    | NodeType.NODE_NUMBER =>
      match parseFloat v with
      | none => Except.error ("invalid number " ++ quote v)
      | some val => Except.ok (val, env)
    | NodeType.NODE_IDENTIFIER =>
      match envLookup env v with
      | some val => Except.ok (val, env)
      | none =>
        match envLookup consts v with
        | some val => Except.ok (val, env)
        | none => Except.error ("undefined variable " ++ quote v)
    | NodeType.NODE_ASSIGN =>
      match evalEnvF fns consts fuel r env with
      | Except.error e => Except.error e
      | Except.ok (val, env1) => Except.ok (val, envInsert env1 v val)
    | NodeType.NODE_OPERATOR =>
      if v = "neg" then
        match evalEnvF fns consts fuel l env with
        | Except.error e => Except.error e
        | Except.ok (val, env1) => Except.ok (qneg val, env1)
      else
        match evalEnvF fns consts fuel l env with
        | Except.error e => Except.error e
        | Except.ok (left, env1) =>
          match evalEnvF fns consts fuel r env1 with
          | Except.error e => Except.error e
          | Except.ok (right, env2) =>
            if v = "+" then Except.ok (qadd left right, env2)
            else if v = "-" then Except.ok (qsub left right, env2)
            else if v = "*" then Except.ok (qmul left right, env2)
            else if v = "/" then
              if right = mkRat 0 1 then Except.error "division by zero"
              else Except.ok (qdiv left right, env2)
            else if v = "^" then Except.ok (goPow left right, env2)
            else Except.error ("unknown operator " ++ quote v)
    | NodeType.NODE_COMPARISON =>
      match evalEnvF fns consts fuel l env with
      | Except.error e => Except.error e
      | Except.ok (left, env1) =>
        match evalEnvF fns consts fuel r env1 with
        | Except.error e => Except.error e
        | Except.ok (right, env2) =>
          if v = ">" then
            Except.ok (if right < left then mkRat 1 1 else mkRat 0 1, env2)
          else if v = "<" then
            Except.ok (if left < right then mkRat 1 1 else mkRat 0 1, env2)
          else if v = ">=" then
            Except.ok (if right ≤ left then mkRat 1 1 else mkRat 0 1, env2)
          else if v = "<=" then
            Except.ok (if left ≤ right then mkRat 1 1 else mkRat 0 1, env2)
          else if v = "==" then
            Except.ok (if left = right then mkRat 1 1 else mkRat 0 1, env2)
          else if v = "!=" then
            Except.ok (if left ≠ right then mkRat 1 1 else mkRat 0 1, env2)
          else Except.error ("unknown operator " ++ quote v)
    | NodeType.NODE_AND =>
      match evalEnvF fns consts fuel l env with
      | Except.error e => Except.error e
      | Except.ok (left, env1) =>
        match evalEnvF fns consts fuel r env1 with
        | Except.error e => Except.error e
        | Except.ok (right, env2) =>
          Except.ok (if left ≠ mkRat 0 1 ∧ right ≠ mkRat 0 1 then mkRat 1 1
            else mkRat 0 1, env2)
    | NodeType.NODE_OR =>
      match evalEnvF fns consts fuel l env with
      | Except.error e => Except.error e
      | Except.ok (left, env1) =>
        match evalEnvF fns consts fuel r env1 with
        | Except.error e => Except.error e
        | Except.ok (right, env2) =>
          Except.ok (if left ≠ mkRat 0 1 ∨ right ≠ mkRat 0 1 then mkRat 1 1
            else mkRat 0 1, env2)
    | NodeType.NODE_FUNCTION =>
      match cs with
      | [] => Except.error ("function " ++ quote v ++ " requires at least 1 argument")
      | c0 :: _ =>
        match evalEnvF fns consts fuel c0 env with
        | Except.error e => Except.error e
        | Except.ok (arg1, env1) =>
          if v = "!" then
            match factorial arg1 with
            | Except.error e => Except.error e
            | Except.ok val => Except.ok (val, env1)
          else Except.error ("unknown function " ++ quote v)
termination_by structural fuel => fuel

mutual

theorem Node.eq_of_beq : ∀ {a b : Node}, Node.beq a b = true → a = b
  | Node.mk t1 v1 l1 r1 c1, Node.mk t2 v2 l2 r2 c2, h => by
    rw [Node.beq] at h
    simp only [Bool.and_eq_true, beq_iff_eq] at h
    obtain ⟨⟨⟨⟨h1, h2⟩, h3⟩, h4⟩, h5⟩ := h
    rw [h1, h2, Node.oeq_of_obeq h3, Node.oeq_of_obeq h4, Node.leq_of_lbeq h5]

theorem Node.oeq_of_obeq : ∀ {a b : Option Node}, Node.obeq a b = true → a = b
  | none, none, _ => rfl
  | some x, some y, h =>
    congrArg some (Node.eq_of_beq (by simpa only [Node.obeq] using h))
  | none, some y, h => by simp [Node.obeq] at h
  | some x, none, h => by simp [Node.obeq] at h

theorem Node.leq_of_lbeq :
    ∀ {a b : List (Option Node)}, Node.lbeq a b = true → a = b
  | [], [], _ => rfl
  | x :: xs, y :: ys, h => by
    rw [Node.lbeq, Bool.and_eq_true] at h
    rw [Node.oeq_of_obeq h.1, Node.leq_of_lbeq h.2]
  | [], _ :: _, h => by simp [Node.lbeq] at h
  | _ :: _, [], h => by simp [Node.lbeq] at h

end

mutual

theorem Node.beq_self : ∀ a : Node, Node.beq a a = true
  | Node.mk t v l r c => by
    rw [Node.beq]
    simp only [Bool.and_eq_true, beq_self_eq_true, true_and]
    exact ⟨⟨Node.obeq_self l, Node.obeq_self r⟩, Node.lbeq_self c⟩

theorem Node.obeq_self : ∀ a : Option Node, Node.obeq a a = true
  | none => rfl
  | some x => by rw [Node.obeq]; exact Node.beq_self x

theorem Node.lbeq_self : ∀ a : List (Option Node), Node.lbeq a a = true
  | [] => rfl
  | x :: xs => by
    rw [Node.lbeq, Bool.and_eq_true]; exact ⟨Node.obeq_self x, Node.lbeq_self xs⟩

end

instance : DecidableEq Node := fun a b =>
  if h : Node.beq a b = true then Decidable.isTrue (Node.eq_of_beq h)
  else Decidable.isFalse (fun he => h (he ▸ Node.beq_self a))

theorem qadd_eq (a b : ℚ) : qadd a b = a + b := (Rat.add_def' a b).symm

theorem qsub_eq (a b : ℚ) : qsub a b = a - b := (Rat.sub_def' a b).symm

theorem qmul_eq (a b : ℚ) : qmul a b = a * b := by
  rw [Rat.mul_def, Rat.normalize_eq_mkRat]; rfl

theorem qneg_eq (a : ℚ) : qneg a = -a := by
  unfold qneg
  rw [show -a.num = (-a).num by simp, show a.den = (-a).den by simp, Rat.mkRat_self]

theorem qinv_eq (a : ℚ) : qinv a = a⁻¹ := by
  unfold qinv
  rw [show a⁻¹ = a.inv from rfl, Rat.inv_def]
  rcases lt_trichotomy a.num 0 with h | h | h
  · rw [if_neg (by omega), if_pos h, ← Rat.neg_divInt_neg,
      show -a.num = ((-a.num).toNat : ℤ) by omega, Rat.divInt_ofNat, Int.toNat_ofNat]
  · simp [h]
  · rw [if_pos h, show a.num = (a.num.toNat : ℤ) by omega, Rat.divInt_ofNat,
      Int.toNat_ofNat]

theorem qdiv_eq (a b : ℚ) : qdiv a b = a / b := by
  rw [qdiv, qmul_eq, qinv_eq, div_eq_mul_inv]

/-- C4: Exponentiation is right-associative: the token sequence of "2^3^2"
parses to the tree 2^(3^2) and evaluating that tree yields 512 (not 64),
for every transcendental-function instantiation and every sufficient fuel. -/
theorem exponent_right_associative_512 :
    Tokenize "2^3^2" = Except.ok
      [Token.mk TokenType.NUMBER "2", Token.mk TokenType.OPERATOR "^",
       Token.mk TokenType.NUMBER "3", Token.mk TokenType.OPERATOR "^",
       Token.mk TokenType.NUMBER "2"] ∧
    parseTokens
      [Token.mk TokenType.NUMBER "2", Token.mk TokenType.OPERATOR "^",
       Token.mk TokenType.NUMBER "3", Token.mk TokenType.OPERATOR "^",
       Token.mk TokenType.NUMBER "2"] =
      Except.ok (some (opNode "^" (some (numNode "2"))
        (some (opNode "^" (some (numNode "3")) (some (numNode "2")))))) ∧
    (∀ (fns : RealFns) (fuel : ℕ),
      EvalF fns (fuel + 3) (some (opNode "^" (some (numNode "2"))
        (some (opNode "^" (some (numNode "3")) (some (numNode "2")))))) =
        Except.ok (mkRat 512 1)) ∧
    (mkRat 512 1 : ℚ) = 512 := by
  refine ⟨by decide, by decide, fun fns fuel => rfl, ?_⟩
  rw [Rat.mkRat_eq_div]; norm_num

/-- C10: Eval is total at its public interface in the two claimed cases:
a nil node yields an error rather than a crash, and a function-call node
with an empty argument list yields the arity error before any argument (or
the function name's dispatch) is touched. -/
theorem eval_nil_and_empty_arglist_error (fns : RealFns) (fuel : ℕ)
    (name : String) (l r : Option Node) :
    EvalF fns (fuel + 1) none = Except.error "Invalid" ∧
    EvalF fns (fuel + 1) (some (Node.mk NodeType.NODE_FUNCTION name l r [])) =
      Except.error ("function " ++ quote name ++ " requires at least 1 argument") :=
  ⟨rfl, rfl⟩

/-- C2 (divergence witness): `factorial` itself rejects 171 and 3.5 as the
claim requires, but the `"!"` case of `Eval` in src/evaluator/evaluator.go
discards that error and returns the value 0 with no error for "171!" and
"3.5!"; "170!" succeeds.  The newer evaluator in src/unnamed/part_002
propagates the error, matching the claim and the spec. -/
theorem factorial_error_swallowed_by_eval :
    factorial (mkRat 171 1) =
      Except.error "factorial too large: exceeds maximum representable value (limit: 170!)" ∧
    factorial (mkRat 7 2) =
      Except.error "factorial only defined for non-negative integers" ∧
    Tokenize "171!" = Except.ok
      [Token.mk TokenType.NUMBER "171", Token.mk TokenType.FUNCTION "!"] ∧
    parseTokens [Token.mk TokenType.NUMBER "171", Token.mk TokenType.FUNCTION "!"] =
      Except.ok (some (fnNode "!" [some (numNode "171")])) ∧
    (∀ (fns : RealFns) (fuel : ℕ),
      EvalF fns (fuel + 2) (some (fnNode "!" [some (numNode "171")])) =
        Except.ok (mkRat 0 1)) ∧
    (∀ (fns : RealFns) (fuel : ℕ),
      EvalF fns (fuel + 2) (some (fnNode "!" [some (numNode "3.5")])) =
        Except.ok (mkRat 0 1)) ∧
    (∀ (fns : RealFns) (fuel : ℕ),
      EvalF fns (fuel + 2) (some (fnNode "!" [some (numNode "170")])) =
        Except.ok (factLoop 170)) ∧
    (∀ (fns : RealFns) (fuel : ℕ),
      EvalV2F fns (fuel + 2) (some (fnNode "!" [some (numNode "171")])) =
        Except.error "factorial too large: exceeds maximum representable value (limit: 170!)") :=
  ⟨by decide, by decide, by decide, by decide,
   fun fns fuel => rfl, fun fns fuel => rfl, fun fns fuel => rfl, fun fns fuel => rfl⟩

/-- C5 (divergence witness): "-3^2" parses as -(3^2) — a `neg` node whose
operand is the exponentiation subtree — exactly as claimed; but `Eval` in
src/evaluator/evaluator.go has no `"neg"` case, feeds the nil `Right` child
of the node into `Eval` and returns the error `Invalid`, so the evaluation
claimed to yield -9 fails instead.  The newer evaluator in
src/unnamed/part_002 handles `"neg"` and yields -9 as claimed. -/
theorem unary_minus_parses_but_eval_lacks_neg :
    Tokenize "-3^2" = Except.ok
      [Token.mk TokenType.OPERATOR "-", Token.mk TokenType.NUMBER "3",
       Token.mk TokenType.OPERATOR "^", Token.mk TokenType.NUMBER "2"] ∧
    parseTokens
      [Token.mk TokenType.OPERATOR "-", Token.mk TokenType.NUMBER "3",
       Token.mk TokenType.OPERATOR "^", Token.mk TokenType.NUMBER "2"] =
      Except.ok (some (negNode (some (opNode "^" (some (numNode "3"))
        (some (numNode "2")))))) ∧
    (∀ (fns : RealFns) (fuel : ℕ),
      EvalF fns (fuel + 3) (some (negNode (some (opNode "^" (some (numNode "3"))
        (some (numNode "2")))))) = Except.error "Invalid") ∧
    (∀ (fns : RealFns) (fuel : ℕ),
      EvalV2F fns (fuel + 3) (some (negNode (some (opNode "^" (some (numNode "3"))
        (some (numNode "2")))))) = Except.ok (mkRat (-9) 1)) ∧
    (mkRat (-9) 1 : ℚ) = -9 := by
  refine ⟨by decide, by decide, fun fns fuel => rfl, fun fns fuel => rfl, ?_⟩
  rw [Rat.mkRat_eq_div]; norm_num

/-- C6 (divergence witness): in src/tokenizer/tokenizer.go the letter case
emits word tokens as `IDENT` directly — bypassing the buffer flushes and
`addToken` — and skips the character that ends the word, so "2sin(90)"
tokenizes to `[IDENT "sin", NUMBER "290", PAREN ")"]` (the pending "2"
merges with "90", the "(" is lost) and then fails to parse; no implicit
`*` is inserted.  `addToken`'s own trigger set inserts `*` before a NUMBER,
FUNCTION or opening PAREN but not before an IDENT, so even tokens routed
through it never get the claimed insertion before identifiers. -/
theorem implicit_multiplication_not_inserted :
    Tokenize "2sin(90)" = Except.ok
      [Token.mk TokenType.IDENT "sin", Token.mk TokenType.NUMBER "290",
       Token.mk TokenType.PAREN ")"] ∧
    parseTokens
      [Token.mk TokenType.IDENT "sin", Token.mk TokenType.NUMBER "290",
       Token.mk TokenType.PAREN ")"] =
      Except.error "unexpected token '290' at position 1" ∧
    addToken [Token.mk TokenType.NUMBER "2"] (Token.mk TokenType.PAREN "(") =
      [Token.mk TokenType.NUMBER "2", Token.mk TokenType.OPERATOR "*",
       Token.mk TokenType.PAREN "("] ∧
    addToken [Token.mk TokenType.NUMBER "2"] (Token.mk TokenType.IDENT "sin") =
      [Token.mk TokenType.NUMBER "2", Token.mk TokenType.IDENT "sin"] := by
  exact ⟨by decide, by decide, by decide, by decide⟩

/-- C3: for operands whose evaluations succeed with values `vl` and `vr`,
the division node returns the error DivisionByZero when `vr` is zero (never
a value such as Infinity), and the quotient `vl / vr` otherwise. -/
theorem division_semantics (fns : RealFns) (fuel : ℕ) (l r : Option Node)
    (vl vr : ℚ)
    (hl : EvalF fns fuel l = Except.ok vl)
    (hr : EvalF fns fuel r = Except.ok vr) :
    (vr = 0 → EvalF fns (fuel + 1) (some (opNode "/" l r)) =
      Except.error "division by zero") ∧
    (vr ≠ 0 → EvalF fns (fuel + 1) (some (opNode "/" l r)) =
      Except.ok (qdiv vl vr) ∧ qdiv vl vr = vl / vr) := by
  have hstep : EvalF fns (fuel + 1) (some (opNode "/" l r)) =
      if vr = mkRat 0 1 then Except.error "division by zero"
      else Except.ok (qdiv vl vr) := by
    simp [EvalF, opNode, hl, hr]
  constructor
  · intro h0
    rw [hstep, if_pos (by rw [Rat.zero_mkRat]; exact h0)]
  · intro hne
    rw [hstep, if_neg (by rw [Rat.zero_mkRat]; exact hne)]
    exact ⟨rfl, qdiv_eq vl vr⟩

/-- Witness for `division_semantics`: "5/0" evaluates to the
division-by-zero error and "0/5" evaluates to the value 0. -/
theorem division_semantics_witness :
    EvalF zeroFns 2 (some (opNode "/" (some (numNode "5")) (some (numNode "0")))) =
      Except.error "division by zero" ∧
    EvalF zeroFns 2 (some (opNode "/" (some (numNode "0")) (some (numNode "5")))) =
      Except.ok (mkRat 0 1) := by
  constructor
  · exact (division_semantics zeroFns 1 (some (numNode "5")) (some (numNode "0"))
      (mkRat 5 1) (mkRat 0 1) (by decide) (by decide)).1 (by simp)
  · have h := (division_semantics zeroFns 1 (some (numNode "0")) (some (numNode "5"))
      (mkRat 0 1) (mkRat 5 1) (by decide) (by decide)).2
      (by rw [Rat.mkRat_eq_div]; norm_num)
    rw [h.1]
    decide

/-- C1: an Assignment node evaluates its right-hand subtree first, stores
the resulting value in the environment under its name, and returns that
value, and a later lookup of that name sees the stored value; parsing
`IDENT x, ASSIGN, e-tokens` yields exactly that Assignment node; and the
concrete pipeline evaluates "x = 10" to 10 (leaving x bound to 10) and then
"x + 5" to 15 in the same environment.  (The evaluator here is the
spec-modelled `evalEnvF`; see its docstring.) -/
theorem assignment_evaluates_stores_returns
    (fns : RealFns) (consts : List (String × ℚ)) (fuel : ℕ)
    (x : String) (e : Option Node) (env env1 : List (String × ℚ)) (v : ℚ)
    (he : evalEnvF fns consts fuel e env = Except.ok (v, env1)) :
    (evalEnvF fns consts (fuel + 1) (some (assignNode x e)) env =
        Except.ok (v, envInsert env1 x v) ∧
      envLookup (envInsert env1 x v) x = some v) ∧
    (∀ (rest : List Token) (rhs : Node) (pos2 : ℕ),
      parseLogicalOrF fuel
          (Token.mk TokenType.IDENT x :: Token.mk TokenType.ASSIGN "=" :: rest) 2 =
        Except.ok (some rhs, pos2) →
      parseAssignmentF (fuel + 1)
          (Token.mk TokenType.IDENT x :: Token.mk TokenType.ASSIGN "=" :: rest) 0 =
        Except.ok (some (assignNode x (some rhs)), pos2)) ∧
    (Tokenize "x = 10" = Except.ok
        [Token.mk TokenType.IDENT "x", Token.mk TokenType.ASSIGN "=",
         Token.mk TokenType.NUMBER "10"] ∧
      parseTokens
        [Token.mk TokenType.IDENT "x", Token.mk TokenType.ASSIGN "=",
         Token.mk TokenType.NUMBER "10"] =
        Except.ok (some (assignNode "x" (some (numNode "10")))) ∧
      evalEnvF fns consts 9 (some (assignNode "x" (some (numNode "10")))) [] =
        Except.ok (mkRat 10 1, [("x", mkRat 10 1)]) ∧
      Tokenize "x + 5" = Except.ok
        [Token.mk TokenType.IDENT "x", Token.mk TokenType.OPERATOR "+",
         Token.mk TokenType.NUMBER "5"] ∧
      parseTokens
        [Token.mk TokenType.IDENT "x", Token.mk TokenType.OPERATOR "+",
         Token.mk TokenType.NUMBER "5"] =
        Except.ok (some (opNode "+" (some (identNode "x")) (some (numNode "5")))) ∧
      evalEnvF fns consts 9
          (some (opNode "+" (some (identNode "x")) (some (numNode "5"))))
          [("x", mkRat 10 1)] =
        Except.ok (mkRat 15 1, [("x", mkRat 10 1)]) ∧
      (mkRat 10 1 : ℚ) = 10 ∧ (mkRat 15 1 : ℚ) = 15) := by
  refine ⟨⟨?_, ?_⟩, ?_, by decide, by decide, rfl, by decide, by decide, rfl,
    by rw [Rat.mkRat_eq_div]; norm_num, by rw [Rat.mkRat_eq_div]; norm_num⟩
  · simp only [assignNode, evalEnvF, he]
  · simp [envInsert, envLookup]
  · intro rest rhs pos2 hp
    simp only [parseAssignmentF, List.get?] at hp ⊢
    simp only [show (0 + 2 : ℕ) = 2 from rfl, hp]
    simp

/-- Witness for `assignment_evaluates_stores_returns`: the concrete
assignment "x = 10" in the empty environment. -/
theorem assignment_evaluates_stores_returns_witness :
    evalEnvF zeroFns [] 10 (some (assignNode "x" (some (numNode "10")))) [] =
      Except.ok (mkRat 10 1, envInsert [] "x" (mkRat 10 1)) ∧
    envLookup (envInsert [] "x" (mkRat 10 1)) "x" = some (mkRat 10 1) ∧
    parseAssignmentF 10
      [Token.mk TokenType.IDENT "x", Token.mk TokenType.ASSIGN "=",
       Token.mk TokenType.NUMBER "10"] 0 =
      Except.ok (some (assignNode "x" (some (numNode "10"))), 3) := by
  have h := assignment_evaluates_stores_returns zeroFns [] 9 "x"
    (some (numNode "10")) [] [] (mkRat 10 1) (by decide)
  exact ⟨h.1.1, h.1.2,
    h.2.1 [Token.mk TokenType.NUMBER "10"] (numNode "10") 3 (by decide)⟩

/-- C7: under the spec-modelled evaluator, every successful evaluation of a
Comparison, LogicalAnd or LogicalOr node yields exactly 0 or exactly 1, and
both operands are evaluated eagerly: an error in the right operand
propagates even when the left operand alone would determine a
short-circuited answer. -/
theorem comparison_logical_eager_boolean
    (fns : RealFns) (consts : List (String × ℚ)) (fuel : ℕ) :
    (∀ (op : String) (l r : Option Node) (env env2 : List (String × ℚ)) (v : ℚ),
      evalEnvF fns consts (fuel + 1) (some (cmpNode op l r)) env =
        Except.ok (v, env2) → v = mkRat 0 1 ∨ v = mkRat 1 1) ∧
    (∀ (l r : Option Node) (env env2 : List (String × ℚ)) (v : ℚ),
      evalEnvF fns consts (fuel + 1) (some (andNode l r)) env =
        Except.ok (v, env2) → v = mkRat 0 1 ∨ v = mkRat 1 1) ∧
    (∀ (l r : Option Node) (env env2 : List (String × ℚ)) (v : ℚ),
      evalEnvF fns consts (fuel + 1) (some (orNode l r)) env =
        Except.ok (v, env2) → v = mkRat 0 1 ∨ v = mkRat 1 1) ∧
    (∀ (l r : Option Node) (env env1 : List (String × ℚ)) (lv : ℚ) (err : String),
      evalEnvF fns consts fuel l env = Except.ok (lv, env1) →
      evalEnvF fns consts fuel r env1 = Except.error err →
      evalEnvF fns consts (fuel + 1) (some (andNode l r)) env = Except.error err ∧
      evalEnvF fns consts (fuel + 1) (some (orNode l r)) env = Except.error err ∧
      ∀ (op : String),
        evalEnvF fns consts (fuel + 1) (some (cmpNode op l r)) env =
          Except.error err) := by
  refine ⟨?_, ?_, ?_, ?_⟩
  · intro op l r env env2 v h
    simp only [cmpNode, evalEnvF] at h
    cases hl : evalEnvF fns consts fuel l env with
    | error e => rw [hl] at h; simp at h
    | ok p =>
      obtain ⟨lv, env1⟩ := p
      rw [hl] at h
      dsimp only at h
      cases hr : evalEnvF fns consts fuel r env1 with
      | error e => rw [hr] at h; simp at h
      | ok q =>
        obtain ⟨rv, env2x⟩ := q
        rw [hr] at h
        dsimp only at h
        repeat' split at h
        all_goals
          first
          | (simp only [Except.ok.injEq, Prod.mk.injEq] at h
             first
             | exact Or.inl h.1.symm
             | exact Or.inr h.1.symm)
          | simp at h
  · intro l r env env2 v h
    simp only [andNode, evalEnvF] at h
    cases hl : evalEnvF fns consts fuel l env with
    | error e => rw [hl] at h; simp at h
    | ok p =>
      obtain ⟨lv, env1⟩ := p
      rw [hl] at h
      dsimp only at h
      cases hr : evalEnvF fns consts fuel r env1 with
      | error e => rw [hr] at h; simp at h
      | ok q =>
        obtain ⟨rv, env2x⟩ := q
        rw [hr] at h
        dsimp only at h
        repeat' split at h
        all_goals
          simp only [Except.ok.injEq, Prod.mk.injEq] at h
        all_goals
          first
          | exact Or.inl h.1.symm
          | exact Or.inr h.1.symm
  · intro l r env env2 v h
    simp only [orNode, evalEnvF] at h
    cases hl : evalEnvF fns consts fuel l env with
    | error e => rw [hl] at h; simp at h
    | ok p =>
      obtain ⟨lv, env1⟩ := p
      rw [hl] at h
      dsimp only at h
      cases hr : evalEnvF fns consts fuel r env1 with
      | error e => rw [hr] at h; simp at h
      | ok q =>
        obtain ⟨rv, env2x⟩ := q
        rw [hr] at h
        dsimp only at h
        repeat' split at h
        all_goals
          simp only [Except.ok.injEq, Prod.mk.injEq] at h
        all_goals
          first
          | exact Or.inl h.1.symm
          | exact Or.inr h.1.symm
  · intro l r env env1 lv err hl hr
    refine ⟨?_, ?_, fun op => ?_⟩
    · simp [andNode, evalEnvF, hl, hr]
    · simp [orNode, evalEnvF, hl, hr]
    · simp [cmpNode, evalEnvF, hl, hr]

/-- Witness for `comparison_logical_eager_boolean`: "5 > 3" evaluates to a
value that is 0 or 1, and an erroring right operand of "&&" propagates even
under a false left operand. -/
theorem comparison_logical_eager_boolean_witness :
    (mkRat 1 1 = mkRat 0 1 ∨ mkRat 1 1 = mkRat 1 1) ∧
    evalEnvF zeroFns [] 10
      (some (andNode (some (numNode "0")) (some (identNode "nope")))) [] =
      Except.error ("undefined variable " ++ quote "nope") := by
  constructor
  · exact (comparison_logical_eager_boolean zeroFns [] 9).1 ">"
      (some (numNode "5")) (some (numNode "3")) [] [] (mkRat 1 1) (by decide)
  · exact (((comparison_logical_eager_boolean zeroFns [] 9).2.2.2
      (some (numNode "0")) (some (identNode "nope")) [] [] (mkRat 0 1)
      ("undefined variable " ++ quote "nope") (by decide) (by decide))).1

/-- C8: the parser's error contract — an empty token sequence is the
EmptyExpression error; a parenthesized group or a function call (through
either the `IDENT` or the `FUNCTION` branch) whose inner parse succeeds but
whose closing parenthesis is absent — end of input or a non-`)` token — is
an UnmatchedParen error, never a silently returned AST; with whole-parse
instances for "(2" and "sin(2". -/
theorem parse_empty_and_unmatched_paren
    (fuel : ℕ) (toks : List Token) (pos : ℕ) :
    ParseExpressionF (fuel + 1) [] = Except.error "empty expression" ∧
    (∀ (sub : Node) (pos2 : ℕ),
      toks.get? pos = some (Token.mk TokenType.PAREN "(") →
      parseAssignmentF fuel toks (pos + 1) = Except.ok (some sub, pos2) →
      (∀ t : Token, toks.get? pos2 = some t → t.value ≠ ")") →
      parseFactorF (fuel + 1) toks pos =
        Except.error "unmatched opening parenthesis") ∧
    (∀ (fname : String) (t1 : Token) (args : List (Option Node)) (pos2 : ℕ),
      toks.get? pos = some (Token.mk TokenType.IDENT fname) →
      toks.get? (pos + 1) = some t1 → t1.value = "(" →
      parseCallArgsF fuel toks (pos + 2) = Except.ok (args, pos2) →
      (∀ t : Token, toks.get? pos2 = some t → t.value ≠ ")") →
      parseFactorF (fuel + 1) toks pos =
        Except.error ("unmatched opening parenthesis in function call '" ++
          fname ++ "'")) ∧
    (∀ (fname : String) (t1 : Token) (args : List (Option Node)) (pos2 : ℕ),
      toks.get? pos = some (Token.mk TokenType.FUNCTION fname) → fname ≠ "!" →
      toks.get? (pos + 1) = some t1 → t1.value = "(" →
      parseCallArgsF fuel toks (pos + 2) = Except.ok (args, pos2) →
      (∀ t : Token, toks.get? pos2 = some t → t.value ≠ ")") →
      parseFactorF (fuel + 1) toks pos =
        Except.error ("unmatched opening parenthesis in function '" ++
          fname ++ "'")) ∧
    parseTokens [Token.mk TokenType.PAREN "(", Token.mk TokenType.NUMBER "2"] =
      Except.error "unmatched opening parenthesis" ∧
    parseTokens
      [Token.mk TokenType.IDENT "sin", Token.mk TokenType.PAREN "(",
       Token.mk TokenType.NUMBER "2"] =
      Except.error "unmatched opening parenthesis in function call 'sin'" ∧
    parseTokens [] = Except.error "empty expression" := by
  refine ⟨rfl, ?_, ?_, ?_, by decide, by decide, by decide⟩
  · intro sub pos2 hpos hsub hclose
    simp only [parseFactorF, hpos, hsub]
    dsimp only
    cases hc2 : toks.get? pos2 with
    | none => simp
    | some t2 => simp [hc2, hclose t2 hc2]
  · intro fname t1 args pos2 hpos h1 h1v hargs hclose
    simp only [parseFactorF, hpos, h1, h1v, hargs]
    cases hc2 : toks.get? pos2 with
    | none => simp [hc2]
    | some t2 => simp [hc2, hclose t2 hc2]
  · intro fname t1 args pos2 hpos hbang h1 h1v hargs hclose
    simp only [parseFactorF, hpos, h1, h1v, hargs]
    simp only [if_neg hbang]
    cases hc2 : toks.get? pos2 with
    | none => simp [hc2]
    | some t2 => simp [hc2, hclose t2 hc2]

/-- Witness for `parse_empty_and_unmatched_paren`: the factor parses of
"( 2" and "sin ( 2" (as token lists) both fail with the respective
UnmatchedParen errors. -/
theorem parse_empty_and_unmatched_paren_witness :
    parseFactorF 31 [Token.mk TokenType.PAREN "(", Token.mk TokenType.NUMBER "2"] 0 =
      Except.error "unmatched opening parenthesis" ∧
    parseFactorF 31
      [Token.mk TokenType.IDENT "sin", Token.mk TokenType.PAREN "(",
       Token.mk TokenType.NUMBER "2"] 0 =
      Except.error ("unmatched opening parenthesis in function call '" ++
        "sin" ++ "'") := by
  constructor
  · exact (parse_empty_and_unmatched_paren 30
      [Token.mk TokenType.PAREN "(", Token.mk TokenType.NUMBER "2"] 0).2.1
      (numNode "2") 2 (by decide) (by decide) (fun t ht => by simp at ht)
  · exact (parse_empty_and_unmatched_paren 30
      [Token.mk TokenType.IDENT "sin", Token.mk TokenType.PAREN "(",
       Token.mk TokenType.NUMBER "2"] 0).2.2.1
      "sin" (Token.mk TokenType.PAREN "(") [some (numNode "2")] 3 (by decide)
      (by decide) (by decide) (by decide) (fun t ht => by simp at ht)

/-- C9 (counterexample): `Tokenize` succeeds on "." emitting a Number token
whose text "." is not a valid numeral — `parseFloat` rejects it and the
evaluator then errors on the resulting literal node; likewise "1e5.2" is
emitted as one Number token whose conversion fails. -/
theorem number_token_not_always_numeral :
    Tokenize "." = Except.ok [Token.mk TokenType.NUMBER "."] ∧
    parseFloat "." = none ∧
    (∀ (fns : RealFns) (fuel : ℕ),
      EvalF fns (fuel + 1) (some (numNode ".")) =
        Except.error ("invalid number " ++ quote ".")) ∧
    Tokenize "1e5.2" = Except.ok [Token.mk TokenType.NUMBER "1e5.2"] ∧
    parseFloat "1e5.2" = none :=
  ⟨by decide, by decide, fun fns fuel => rfl, by decide, by decide⟩

/-- The NUMBER-token dot bound is preserved by `addToken`: it only appends
the given token and possibly an `OPERATOR "*"`. -/
theorem addToken_dots (tokens : List Token) (t : Token)
    (hP : ∀ u ∈ tokens, u.type = TokenType.NUMBER → u.value.data.count '.' ≤ 1)
    (ht : t.type = TokenType.NUMBER → t.value.data.count '.' ≤ 1) :
    ∀ u ∈ addToken tokens t, u.type = TokenType.NUMBER →
      u.value.data.count '.' ≤ 1 := by
  intro u hu
  have key : ∀ (extra : List Token),
      (∀ w ∈ extra, w.type = TokenType.NUMBER → w.value.data.count '.' ≤ 1) →
      u ∈ tokens ++ extra → u.type = TokenType.NUMBER →
      u.value.data.count '.' ≤ 1 := by
    intro extra hx hm
    rcases List.mem_append.mp hm with h | h
    · exact hP u h
    · exact hx u h
  have hsingle : ∀ w ∈ [t], w.type = TokenType.NUMBER →
      w.value.data.count '.' ≤ 1 := by
    intro w hw
    rw [List.mem_singleton.mp hw]
    exact ht
  have hstar : ∀ w ∈ [Token.mk TokenType.OPERATOR "*", t],
      w.type = TokenType.NUMBER → w.value.data.count '.' ≤ 1 := by
    intro w hw
    rcases List.mem_cons.mp hw with h | h
    · subst h; intro habs; simp [Token.mk.injEq] at habs
    · exact hsingle w h
  unfold addToken at hu
  split at hu
  · exact key [t] hsingle hu
  · split at hu
    · exact key [t] hsingle hu
    · split at hu
      · exact key [Token.mk TokenType.OPERATOR "*", t] hstar hu
      · exact key [t] hsingle hu

/-- The NUMBER-token dot bound is preserved by flushing the number buffer,
provided the buffer itself satisfies the bound. -/
theorem flushNum_dots (nb : List Char) (tokens : List Token)
    (hP : ∀ u ∈ tokens, u.type = TokenType.NUMBER → u.value.data.count '.' ≤ 1)
    (hnb : nb.count '.' ≤ 1) :
    ∀ u ∈ flushNum nb tokens, u.type = TokenType.NUMBER →
      u.value.data.count '.' ≤ 1 := by
  unfold flushNum
  split
  · exact hP
  · exact addToken_dots tokens _ hP (fun _ => hnb)

/-- The NUMBER-token dot bound is preserved by flushing the word buffer
(which emits a FUNCTION token). -/
theorem flushWord_dots (wb : List Char) (tokens : List Token)
    (hP : ∀ u ∈ tokens, u.type = TokenType.NUMBER → u.value.data.count '.' ≤ 1) :
    ∀ u ∈ flushWord wb tokens, u.type = TokenType.NUMBER →
      u.value.data.count '.' ≤ 1 := by
  unfold flushWord
  split
  · exact hP
  · exact addToken_dots tokens _ hP (fun habs => by simp [Token.mk.injEq] at habs)

/-- A run of digits contains no decimal point. -/
theorem count_dot_takeWhile_digit (l : List Char) :
    (l.takeWhile Char.isDigit).count '.' = 0 := by
  rw [List.count_eq_zero]
  intro hm
  have := List.mem_takeWhile_imp hm
  simp at this

/-- Scan invariant for C9: if every NUMBER token emitted so far and the
number buffer satisfy the one-decimal-point bound, then so does every
NUMBER token of a successful scan. -/
theorem tokenizeLoop_dots :
    ∀ (fuel : ℕ) (input nb wb : List Char) (tokens out : List Token),
      (∀ u ∈ tokens, u.type = TokenType.NUMBER → u.value.data.count '.' ≤ 1) →
      nb.count '.' ≤ 1 →
      tokenizeLoop fuel input nb wb tokens = Except.ok out →
      ∀ u ∈ out, u.type = TokenType.NUMBER → u.value.data.count '.' ≤ 1 := by
  intro fuel
  induction fuel with
  | zero =>
    intro input nb wb tokens out hP hnb h
    exact absurd h (by simp [tokenizeLoop])
  | succ fuel ih =>
    intro input nb wb tokens out hP hnb h
    match input with
    | [] =>
      rw [tokenizeLoop] at h
      have hout := Except.ok.inj h
      exact hout ▸ flushWord_dots wb _ (flushNum_dots nb tokens hP hnb)
    | c :: rest =>
      rw [tokenizeLoop] at h
      split at h
      next hdig =>
        split at h
        next hdd => exact absurd h (by simp)
        next hdd =>
          have hnb1 : (nb ++ [c]).count '.' ≤ 1 := by
            by_cases hc : c = '.'
            · have hcd : containsDot nb = false := by
                cases hcontains : containsDot nb
                · rfl
                · exact absurd ⟨hc, hcontains⟩ hdd
              have h0 : nb.count '.' = 0 := by
                rw [List.count_eq_zero]
                intro hmem
                have hct : containsDot nb = true := by
                  simpa [containsDot] using hmem
                rw [hct] at hcd
                exact Bool.noConfusion hcd
              subst hc
              simp [List.count_append, List.count_singleton, h0]
            · have h1 : List.count '.' [c] = 0 := by
                rw [List.count_eq_zero]
                intro hmem
                exact hc (List.mem_singleton.mp hmem).symm
              simp only [List.count_append, h1]
              omega
          cases rest with
          | nil => exact ih [] (nb ++ [c]) wb tokens out hP hnb1 h
          | cons e rest2 =>
            dsimp only at h
            split at h
            next hee =>
              have he0 : List.count '.' [e] = 0 := by
                cases hee with
                | inl h2 => rw [h2]; decide
                | inr h2 => rw [h2]; decide
              cases rest2 with
              | nil =>
                exact absurd h (by simp)
              | cons s rest3 =>
                dsimp only at h
                split at h
                next hsign =>
                  have hs0 : List.count '.' [s] = 0 := by
                    cases hsign with
                    | inl h2 => rw [h2]; decide
                    | inr h2 => rw [h2]; decide
                  split at h
                  next hempty => exact absurd h (by simp)
                  next hempty =>
                    refine ih _ _ wb tokens out hP ?_ h
                    have htw := count_dot_takeWhile_digit rest3
                    simp only [List.count_append] at hnb1 ⊢
                    simp only [he0, hs0, htw]
                    omega
                next hsign =>
                  split at h
                  next hempty => exact absurd h (by simp)
                  next hempty =>
                    refine ih _ _ wb tokens out hP ?_ h
                    have htw := count_dot_takeWhile_digit (s :: rest3)
                    simp only [List.count_append] at hnb1 ⊢
                    simp only [he0, htw]
                    omega
            next hee => exact ih (e :: rest2) (nb ++ [c]) wb tokens out hP hnb1 h
      next hdig =>
        split at h
        next halpha =>
          refine ih _ nb wb _ out ?_ hnb h
          intro u hu
          rcases List.mem_append.mp hu with hm | hm
          · exact hP u hm
          · rw [List.mem_singleton.mp hm]
            intro habs
            simp at habs
        next halpha =>
          split at h
          next hop =>
            refine ih rest [] [] _ out ?_ (by simp) h
            exact addToken_dots _ _
              (flushWord_dots wb _ (flushNum_dots nb tokens hP hnb))
              (fun habs => by simp at habs)
          next hop =>
            split at h
            next heq =>
              refine ih rest nb wb _ out ?_ hnb h
              intro u hu
              rcases List.mem_append.mp hu with hm | hm
              · exact hP u hm
              · rw [List.mem_singleton.mp hm]
                intro habs
                simp at habs
            next heq =>
              split at h
              next hpar =>
                refine ih rest [] [] _ out ?_ (by simp) h
                exact addToken_dots _ _
                  (flushWord_dots wb _ (flushNum_dots nb tokens hP hnb))
                  (fun habs => by simp at habs)
              next hpar =>
                split at h
                next hbang =>
                  refine ih rest [] [] _ out ?_ (by simp) h
                  exact addToken_dots _ _
                    (flushWord_dots wb _ (flushNum_dots nb tokens hP hnb))
                    (fun habs => by simp at habs)
                next hbang =>
                  split at h
                  next hspace =>
                    exact ih rest [] [] _ out
                      (flushWord_dots wb _ (flushNum_dots nb tokens hP hnb))
                      (by simp) h
                  next hspace =>
                    split at h
                    next hcomma =>
                      refine ih rest [] [] _ out ?_ (by simp) h
                      exact addToken_dots _ _
                        (flushWord_dots wb _ (flushNum_dots nb tokens hP hnb))
                        (fun habs => by simp at habs)
                    next hcomma => exact absurd h (by simp)

/-- C9 (amended): every Number token produced by a successful run of
`Tokenize` has at most one decimal point in its text.  (The stronger
original claim — that the text is always a convertible numeral — is refuted
by `number_token_not_always_numeral`.) -/
theorem tokenize_number_one_dot (s : String) (toks : List Token)
    (h : Tokenize s = Except.ok toks) :
    ∀ t ∈ toks, t.type = TokenType.NUMBER → t.value.data.count '.' ≤ 1 :=
  tokenizeLoop_dots (s.length + 1) s.data [] [] [] toks (by simp) (by simp) h

/-- Witness for `tokenize_number_one_dot` on the input "3.14". -/
theorem tokenize_number_one_dot_witness :
    (Token.mk TokenType.NUMBER "3.14").value.data.count '.' ≤ 1 :=
  tokenize_number_one_dot "3.14" [Token.mk TokenType.NUMBER "3.14"] (by decide)
    (Token.mk TokenType.NUMBER "3.14") (by simp) (by decide)
